import Mathlib

/-!
# Verification of the subscription-entitlement and payment-webhook core

Shallow embedding of the entitlement model, the checkout-session initiator and
the webhook reconciler of `app.py` (Slogan Technologies IntelliWeb engine),
together with proofs of the behavioural properties stated in the design spec.

Conventions of the embedding:
* SQLite rows become Lean structures; a table becomes a `List` of rows; an SQL
  `UPDATE ... WHERE ...` becomes a `List.map` that rewrites exactly the rows
  matched by the `WHERE` clause.
* Python truthiness of nullable strings (`if not x:` where `x` is `None` or a
  string) is modelled with `Option String`, identifying the empty string with
  `none` on fields that the code only ever truthiness-tests.
* Calls into the external Stripe client are modelled by an environment
  (`StripeEnv`) of pure functions, and — where a claim is about *whether* the
  processor is contacted — by an explicit trace of `StripeCall`s.
* A raised `HTTPException(status, ...)` becomes `Except.error status`.
-/

namespace SloganTech

/-! ## Data model: rows of the `users` and `orders` tables (init_db, app.py 126-128).

Only the columns the payment/entitlement core reads or writes are carried.
`orders.total_amount` is declared `REAL` in the schema but the core only stores
and copies it (no arithmetic), so an exact integer carrier is faithful here. -/

structure UserRec where
  id : Nat
  email : String
  full_name : Option String
  role : String
  subscription_plan : String
  subscription_status : Option String
  stripe_customer_id : Option String
  subscription_id : Option String
  deriving Repr, DecidableEq

structure OrderRec where
  id : Nat
  user_id : Nat
  total_amount : Int
  status : String
  stripe_session_id : Option String
  deriving Repr, DecidableEq

/-- The persistent store touched by the payment core: the `users` and `orders`
tables of the SQLite database. -/
structure Store where
  users : List UserRec
  orders : List OrderRec
  deriving Repr, DecidableEq

/-! ## Entitlement model (app.py 52, 66-69) -/

/-- `PLAN_HIERARCHY = {"none": 0, "basic": 1, "premium": 2, "ultimate": 3}`
(app.py line 52), as an association list in insertion order. -/
def PLAN_HIERARCHY : List (String × Nat) :=
  [("none", 0), ("basic", 1), ("premium", 2), ("ultimate", 3)]

/-- Python `d.get(k, default)` on a string-keyed dictionary of naturals. -/
def dictGetNat (d : List (String × Nat)) (k : String) (default : Nat) : Nat :=
  match d.find? (fun p => p.1 == k) with
  | some p => p.2
  | none => default

/-- `user_has_access` (app.py lines 66-69):
`PLAN_HIERARCHY.get(user_plan, 0) >= PLAN_HIERARCHY.get(required_plan, 99)`. -/
def user_has_access (user_plan : String) (required_plan : String) : Bool :=
  let user_level := dictGetNat PLAN_HIERARCHY user_plan 0
  let required_level := dictGetNat PLAN_HIERARCHY required_plan 99
  user_level ≥ required_level

/-- The four recognised plan identifiers. -/
def planSet : List String := ["none", "basic", "premium", "ultimate"]

/-- Modelled from the spec's words (for comparison with the code): the rank of
a plan under the ordering none < basic < premium < ultimate. -/
def specRank (p : String) : Nat :=
  if p = "none" then 0
  else if p = "basic" then 1
  else if p = "premium" then 2
  else 3

/-! ## Configuration and the Stripe-side environment

`STRIPE_PRICE_ID_BASIC/PREMIUM/ULTIMATE` (app.py 49-51) come from the process
environment, so they are fields of a `Config` rather than literals. External
Stripe calls are deterministic lookups in a `StripeEnv`. -/

structure Config where
  STRIPE_PRICE_ID_BASIC : String
  STRIPE_PRICE_ID_PREMIUM : String
  STRIPE_PRICE_ID_ULTIMATE : String
  deriving Repr, DecidableEq

/-- The external payment processor, as the pure facts the code reads from it:
* `subscriptionPriceId sid` — `stripe.Subscription.retrieve(sid).items.data[0].price.id`;
* `priceRecurring p` — truthiness of `stripe.Price.retrieve(p).recurring`;
* `newCustomerId` — the id of the customer `stripe.Customer.create` returns;
* `newSessionId`, `newSessionUrl` — id and url of the checkout session
  `stripe.checkout.Session.create` returns. -/
structure StripeEnv where
  subscriptionPriceId : String → String
  priceRecurring : String → Bool
  newCustomerId : String
  newSessionId : String
  newSessionUrl : String

/-! ## Webhook reconciler (app.py 1754-1807) -/

/-- The fields of the `checkout.session.completed` event object that
`handle_checkout_session_completed` reads. Stripe metadata values are strings,
but SQLite integer affinity on `users.id` makes `WHERE id = ?` with the
metadata string match the integer primary key, so the user id is a `Nat`.
`subscription` is the recurring-billing reference (`session.subscription`),
only meaningful in subscription mode. -/
structure SessionObj where
  metadata_user_id : Option Nat
  mode : String
  subscription : String
  id : String
  deriving Repr, DecidableEq

/-- The field of the `invoice.payment_succeeded` event object that
`handle_invoice_paid` reads (`invoice.subscription`; `None` or empty is falsy
under the walrus test `if sub_id := invoice.subscription:`). -/
structure InvoiceObj where
  subscription : Option String
  deriving Repr, DecidableEq

/-- A decoded signed event envelope. The webhook dispatches on the
`event['type']` string (app.py 1762-1765); the constructor tag plays the role
of that string, with `other` covering every type the code does not test for. -/
inductive StripeEvent where
  | checkout_session_completed (session : SessionObj)
  | invoice_payment_succeeded (invoice : InvoiceObj)
  | other (type : String)
  deriving Repr, DecidableEq

/-- The `plan_map` dictionary lookup of `handle_checkout_session_completed`
(app.py 1781-1786): `{BASIC: 'basic', PREMIUM: 'premium', ULTIMATE: 'ultimate'}
.get(price_id, 'unknown')`. In a Python dict literal a later duplicate key
overwrites an earlier one, so the lookup tests the later insertions first. -/
def plan_map_get (cfg : Config) (price_id : String) : String :=
  if price_id = cfg.STRIPE_PRICE_ID_ULTIMATE then "ultimate"
  else if price_id = cfg.STRIPE_PRICE_ID_PREMIUM then "premium"
  else if price_id = cfg.STRIPE_PRICE_ID_BASIC then "basic"
  else "unknown"

/-- The row rewrite of `UPDATE users SET subscription_plan = ?,
subscription_status = 'active', subscription_id = ? WHERE id = ?`
(app.py 1789-1792). -/
def subscribe_user (uid : Nat) (plan_name : String) (sub_id : String)
    (u : UserRec) : UserRec :=
  if u.id = uid then
    { u with subscription_plan := plan_name,
             subscription_status := some "active",
             subscription_id := some sub_id }
  else u

/-- `handle_checkout_session_completed` (app.py 1769-1800). Returns the store
after the handler's writes; a missing `user_id` in the metadata logs and
returns without touching the store. -/
def handle_checkout_session_completed (cfg : Config) (env : StripeEnv)
    (session : SessionObj) (store : Store) : Store :=
  match session.metadata_user_id with
  | none => store
  | some uid =>
    if session.mode = "subscription" then
      let stripe_subscription_id := session.subscription
      let price_id := env.subscriptionPriceId stripe_subscription_id
      let plan_name := plan_map_get cfg price_id
      { store with users :=
          store.users.map (subscribe_user uid plan_name stripe_subscription_id) }
    else if session.mode = "payment" then
      { store with orders := store.orders.map (fun o =>
          if o.stripe_session_id = some session.id then
            { o with status := "completed" }
          else o) }
    else store

/-- The Python exception escaping `handle_invoice_paid`. -/
inductive DbExc where
  | attributeError
  deriving Repr, DecidableEq

/-- `handle_invoice_paid` (app.py 1803-1807). The code chains
`conn.execute("UPDATE users SET subscription_status = 'active' WHERE
subscription_id = ?", (sub_id,)).commit()` — but `conn.execute` returns a
`sqlite3.Cursor`, which has no `commit` method. So whenever the invoice
carries a truthy subscription reference, the UPDATE runs inside the
transaction and the chained `.commit()` then raises `AttributeError`; the
`with` connection context manager rolls the transaction back on the
exception, so nothing persists. `Except.error` is that escaping exception
(the persisted store is the entry store); the falsy-reference branch does
nothing and returns normally. -/
def handle_invoice_paid (invoice : InvoiceObj) (store : Store) :
    Except DbExc Store :=
  match invoice.subscription with
  | some _ => Except.error DbExc.attributeError
  | none => Except.ok store

/-- `stripe_webhook_api` (app.py 1754-1766). `sigValid` is whether
`stripe.Webhook.construct_event` accepts the payload and signature header for
the shared signing secret; on failure the endpoint raises
`HTTPException(400, ...)` before any store access. On success it dispatches on
the event type and answers `{'status': 'success'}`. The `try` wraps only
`construct_event`, so an exception escaping a handler is unhandled and FastAPI
answers a generic 500 (the rolled-back store stays as it was). -/
def stripe_webhook_api (cfg : Config) (env : StripeEnv) (sigValid : Bool)
    (event : StripeEvent) (store : Store) : Store × Except Nat String :=
  if sigValid then
    match event with
    | StripeEvent.checkout_session_completed s =>
        (handle_checkout_session_completed cfg env s store, Except.ok "success")
    | StripeEvent.invoice_payment_succeeded inv =>
        match handle_invoice_paid inv store with
        | Except.ok st => (st, Except.ok "success")
        | Except.error _ => (store, Except.error 500)
    | StripeEvent.other _ => (store, Except.ok "success")
  else
    (store, Except.error 400)

/-! ## Checkout session initiator (app.py 1702-1751) -/

/-- One `{'price': ..., 'quantity': ...}` entry of `line_items`. -/
structure LineItem where
  price : String
  quantity : Nat
  deriving Repr, DecidableEq

/-- A request to `create_checkout_session_api`: the two headers the handler
inspects and the two alternative bodies (`line_items` of a JSON body,
`price_id` of a form body; absent or empty values are `none`). -/
structure CheckoutRequest where
  content_type : String
  accept : String
  json_line_items : Option (List LineItem)
  form_price_id : Option String
  deriving Repr, DecidableEq

/-- The two success responses of the endpoint: `JSONResponse({'id': ...})` or
`RedirectResponse(session.url, 303)`. -/
inductive CheckoutResp where
  | jsonId (sid : String)
  | redirect303 (url : String)
  deriving Repr, DecidableEq

/-- A call made to the payment processor, in order of occurrence. -/
inductive StripeCall where
  | priceRetrieve (price : String)
  | customerCreate (email : String)
  | sessionCreate (customer : String) (mode : String) (items : List LineItem)
      (metadata_user_id : Nat)
  deriving Repr, DecidableEq

/-- Whether `pat` is a prefix of `s`, on character lists. -/
def isPrefixOfCL : List Char → List Char → Bool
  | [], _ => true
  | _ :: _, [] => false
  | a :: as, b :: bs => a = b && isPrefixOfCL as bs

/-- Whether `pat` occurs in `s`, on character lists. -/
def containsCL (pat : List Char) : List Char → Bool
  | [] => isPrefixOfCL pat []
  | c :: rest => isPrefixOfCL pat (c :: rest) || containsCL pat rest

/-- Python's substring test `pat in s` on strings. -/
def containsSubstr (s pat : String) : Bool :=
  containsCL pat.data s.data

/-- The content-type dispatch of app.py 1707-1716 resolving the effective
`line_items` value: `None` models both "never assigned" and a falsy value. -/
def resolve_line_items (req : CheckoutRequest) : Option (List LineItem) :=
  if containsSubstr req.content_type "application/json" then
    req.json_line_items
  else if containsSubstr req.content_type "application/x-www-form-urlencoded" then
    req.form_price_id.map (fun p => [⟨p, 1⟩])
  else none

/-- The response shape chosen from the `accept` header (app.py 1743-1747). -/
def checkout_response (env : StripeEnv) (req : CheckoutRequest) : CheckoutResp :=
  if containsSubstr req.accept "application/json" then
    CheckoutResp.jsonId env.newSessionId
  else CheckoutResp.redirect303 env.newSessionUrl

/-- The body of the `try:` block of `create_checkout_session_api`
(app.py 1704-1747): resolve `line_items`; raise 400 when falsy; retrieve the
first price and derive the mode; lazily create and persist a Stripe customer
reference when the user snapshot has none (an unconditional
`UPDATE users SET stripe_customer_id = ? WHERE id = ?`); create the session.
Returns the store, the trace of processor calls, and the response or the
raised status. -/
def create_checkout_session_body (env : StripeEnv) (user : UserRec)
    (req : CheckoutRequest) (store : Store) :
    Store × List StripeCall × Except Nat CheckoutResp :=
  match resolve_line_items req with
  | none => (store, [], Except.error 400)
  | some [] => (store, [], Except.error 400)
  | some (first :: rest) =>
    let mode := if env.priceRecurring first.price then "subscription" else "payment"
    match user.stripe_customer_id with
    | some cid =>
        (store,
         [StripeCall.priceRetrieve first.price,
          StripeCall.sessionCreate cid mode (first :: rest) user.id],
         Except.ok (checkout_response env req))
    | none =>
        let cid := env.newCustomerId
        ({ store with users := store.users.map (fun u =>
             if u.id = user.id then { u with stripe_customer_id := some cid } else u) },
         [StripeCall.priceRetrieve first.price,
          StripeCall.customerCreate user.email,
          StripeCall.sessionCreate cid mode (first :: rest) user.id],
         Except.ok (checkout_response env req))

/-- `create_checkout_session_api` (app.py 1703-1751): the body wrapped in
`try: ... except Exception as e: raise HTTPException(500, str(e))`. Because
`HTTPException` subclasses `Exception`, every status raised inside the body —
including the endpoint's own `HTTPException(400)` — is caught and re-raised
as a 500. Side effects committed before the raise persist. -/
def create_checkout_session_api (env : StripeEnv) (user : UserRec)
    (req : CheckoutRequest) (store : Store) :
    Store × List StripeCall × Except Nat CheckoutResp :=
  match create_checkout_session_body env user req store with
  | (st, calls, Except.error _) => (st, calls, Except.error 500)
  | r => r

/-- The mode argument of the first `sessionCreate` call in a trace. -/
def sessionCreateMode : List StripeCall → Option String
  | [] => none
  | StripeCall.sessionCreate _ m _ _ :: _ => some m
  | _ :: rest => sessionCreateMode rest

/-- A JSON checkout request carrying the given `line_items`. -/
def jsonCheckoutRequest (items : List LineItem) : CheckoutRequest :=
  { content_type := "application/json",
    accept := "application/json",
    json_line_items := some items,
    form_price_id := none }

/-! ## Step model of the lazy customer creation (app.py 1723-1731)

For the race analysis the three customer-setup steps are split out over a
state that also records the processor's side (which customer records exist). -/

/-- The user's `stripe_customer_id` column plus the processor's created
customer records and its fresh-id counter. -/
structure CustState where
  dbCustomerId : Option String
  created : List String
  nextId : Nat
  deriving Repr, DecidableEq

/-- The snapshot read `current_user.get('stripe_customer_id')`: the auth
dependency loads the user row before the handler body runs. -/
def read_customer_ref (s : CustState) : Option String := s.dbCustomerId

/-- `stripe.Customer.create(...)`: the processor mints a fresh customer id. -/
def stripe_customer_create (s : CustState) : String × CustState :=
  let cid := "cus_" ++ toString s.nextId
  (cid, { s with created := s.created ++ [cid], nextId := s.nextId + 1 })

/-- `UPDATE users SET stripe_customer_id = ? WHERE id = ?`: an unconditional
overwrite of the column for this user (no `AND stripe_customer_id IS NULL`). -/
def persist_customer_ref (cid : String) (s : CustState) : CustState :=
  { s with dbCustomerId := some cid }

/-- One request's customer-setup sequence, run from the snapshot it read:
if the snapshot holds no reference, create one and persist it. -/
def customer_setup (snapshot : Option String) (s : CustState) : String × CustState :=
  match snapshot with
  | some cid => (cid, s)
  | none =>
    let r := stripe_customer_create s
    (r.1, persist_customer_ref r.1 r.2)

/-! ## Concrete fixtures used by witnesses and counterexamples -/

/-- A configuration with three distinct price ids. -/
def cfg0 : Config := ⟨"price_basic_1", "price_premium_1", "price_ultimate_1"⟩

/-- A processor environment: every subscription resolves to the premium price;
only `price_sub_1` is recurring. -/
def env0 : StripeEnv :=
  ⟨fun _ => "price_premium_1", fun p => p == "price_sub_1",
   "cus_new_1", "cs_new_1", "https://checkout.test/cs_new_1"⟩

/-- A user with no plan and no Stripe linkage. -/
def user7 : UserRec :=
  ⟨7, "u7@example.com", some "User Seven", "user", "none", none, none, none⟩

/-- A store holding just `user7`. -/
def store0 : Store := ⟨[user7], []⟩

/-- A subscription-mode completed-checkout session for `user7`. -/
def sessSub0 : SessionObj := ⟨some 7, "subscription", "sub_123", "cs_77"⟩

/-- A payment-mode completed-checkout session for `user7`. -/
def sessPay0 : SessionObj := ⟨some 7, "payment", "", "cs_77"⟩

/-- An order for `user7` that has already failed, tied to session `cs_77`. -/
def orderFailed : OrderRec := ⟨31, 7, 40, "failed", some "cs_77"⟩

/-- An order for `user7` already completed, tied to session `cs_77`. -/
def orderDone : OrderRec := ⟨32, 7, 40, "completed", some "cs_77"⟩

/-- A store where the order for `cs_77` has already failed. -/
def storeFailed : Store := ⟨[user7], [orderFailed]⟩

/-- A store where the order for `cs_77` is already completed. -/
def storeDone : Store := ⟨[user7], [orderDone]⟩

/-- An invoice naming a subscription reference that no user owns. -/
def invOrphan : InvoiceObj := ⟨some "sub_gone"⟩

/-- An empty-cart JSON checkout request. -/
def reqEmptyJson : CheckoutRequest :=
  { content_type := "application/json", accept := "application/json",
    json_line_items := some [], form_price_id := none }

/-- A JSON checkout request for one non-recurring price. -/
def reqOneTime : CheckoutRequest := jsonCheckoutRequest [⟨"price_onetime_1", 2⟩]

end SloganTech

namespace SloganTech

/-! ## Helper lemmas -/

/-- Any lookup in `PLAN_HIERARCHY` yields a level of at most 3. -/
lemma dictGetNat_PLAN_HIERARCHY_le (k : String) : dictGetNat PLAN_HIERARCHY k 0 ≤ 3 := by
  unfold dictGetNat PLAN_HIERARCHY
  cases h : List.find? (fun p => p.1 == k)
      [("none", 0), ("basic", 1), ("premium", 2), ("ultimate", 3)] with
  | none => simp
  | some p =>
    have hp := List.mem_of_find?_eq_some h
    simp only [List.mem_cons, List.not_mem_nil, or_false] at hp
    rcases hp with rfl | rfl | rfl | rfl <;> simp

/-- A key outside `planSet` is not found in `PLAN_HIERARCHY`. -/
lemma find?_PLAN_HIERARCHY_eq_none {k : String} (h : k ∉ planSet) :
    List.find? (fun p => p.1 == k) PLAN_HIERARCHY = none := by
  simp only [planSet, List.mem_cons, List.not_mem_nil, or_false, not_or] at h
  obtain ⟨h1, h2, h3, h4⟩ := h
  have e1 : ("none" == k) = false := beq_eq_false_iff_ne.mpr fun he => h1 he.symm
  have e2 : ("basic" == k) = false := beq_eq_false_iff_ne.mpr fun he => h2 he.symm
  have e3 : ("premium" == k) = false := beq_eq_false_iff_ne.mpr fun he => h3 he.symm
  have e4 : ("ultimate" == k) = false := beq_eq_false_iff_ne.mpr fun he => h4 he.symm
  simp [PLAN_HIERARCHY, List.find?, e1, e2, e3, e4]

/-! ## Claim theorems -/

/-- C1. On the four recognised plans, `user_has_access u r` decides
`rank u ≥ rank r` for the ordering none < basic < premium < ultimate; any
unrecognised required plan is refused for every user plan; any unrecognised
user plan behaves exactly like plan "none". -/
theorem user_has_access_rank_correct :
    (∀ u ∈ planSet, ∀ r ∈ planSet,
        user_has_access u r = (specRank u ≥ specRank r)) ∧
    (∀ u r, r ∉ planSet → user_has_access u r = false) ∧
    (∀ u r, u ∉ planSet → user_has_access u r = user_has_access "none" r) := by
  refine ⟨?_, ?_, ?_⟩
  · decide
  · intro u r hr
    have hlev : dictGetNat PLAN_HIERARCHY u 0 ≤ 3 := dictGetNat_PLAN_HIERARCHY_le u
    have hfind := find?_PLAN_HIERARCHY_eq_none hr
    have hreq : dictGetNat PLAN_HIERARCHY r 99 = 99 := by
      simp [dictGetNat, hfind]
    simp only [user_has_access, hreq, ge_iff_le, decide_eq_false_iff_not, not_le]
    omega
  · intro u r hu
    have hfind := find?_PLAN_HIERARCHY_eq_none hu
    have huser : dictGetNat PLAN_HIERARCHY u 0 = 0 := by
      simp [dictGetNat, hfind]
    simp only [user_has_access, huser]
    rfl

/-- Witness for C1: "gold" and "vip" are not recognised plans; a "gold" user
is treated exactly like a "none" user, and a "vip" requirement refuses even an
"ultimate" user. -/
theorem user_has_access_rank_correct_witness :
    ("gold" ∉ planSet ∧
      user_has_access "gold" "basic" = user_has_access "none" "basic") ∧
    ("vip" ∉ planSet ∧ user_has_access "ultimate" "vip" = false) :=
  ⟨⟨by decide, user_has_access_rank_correct.2.2 "gold" "basic" (by decide)⟩,
   ⟨by decide, user_has_access_rank_correct.2.1 "ultimate" "vip" (by decide)⟩⟩

/-- C2. A webhook delivery whose signature does not verify is rejected with
status 400 (a client error) and the store is returned untouched, for every
prior store and every event payload, even a well-formed one. -/
theorem webhook_bad_signature_rejected (cfg : Config) (env : StripeEnv)
    (event : StripeEvent) (store : Store) :
    stripe_webhook_api cfg env false event store = (store, Except.error 400) :=
  rfl

/-- Applying the subscription write twice with the same values is the same as
applying it once. -/
lemma subscribe_user_idem (uid : Nat) (p sid : String) (u : UserRec) :
    subscribe_user uid p sid (subscribe_user uid p sid u) =
      subscribe_user uid p sid u := by
  by_cases h : u.id = uid
  · simp [subscribe_user, h]
  · simp [subscribe_user, h]

lemma subscribe_user_comp (uid : Nat) (p sid : String) :
    subscribe_user uid p sid ∘ subscribe_user uid p sid =
      subscribe_user uid p sid :=
  funext fun u => subscribe_user_idem uid p sid u

/-- C3. Handling the same completed-checkout event in subscription mode twice
leaves exactly the store that handling it once leaves: the second delivery
rewrites the same user row to the same values. -/
theorem subscription_checkout_idempotent (cfg : Config) (env : StripeEnv)
    (s : SessionObj) (hmode : s.mode = "subscription") (store : Store) :
    handle_checkout_session_completed cfg env s
        (handle_checkout_session_completed cfg env s store) =
      handle_checkout_session_completed cfg env s store := by
  cases hm : s.metadata_user_id with
  | none => simp [handle_checkout_session_completed, hm]
  | some uid =>
    simp [handle_checkout_session_completed, hm, hmode, List.map_map,
      subscribe_user_comp]

/-- Witness for C3: re-delivering the premium-subscription checkout event for
`user7` is a no-op on the store it produced. -/
theorem subscription_checkout_idempotent_witness :
    sessSub0.mode = "subscription" ∧
    handle_checkout_session_completed cfg0 env0 sessSub0
        (handle_checkout_session_completed cfg0 env0 sessSub0 store0) =
      handle_checkout_session_completed cfg0 env0 sessSub0 store0 :=
  ⟨rfl, subscription_checkout_idempotent cfg0 env0 sessSub0 rfl store0⟩

/-- C4 (counterexample). The payment-mode branch has no `status = 'pending'`
guard: an Order whose status is already "failed" is rewritten to "completed"
by `UPDATE orders SET status = 'completed' WHERE stripe_session_id = ?`,
refuting the claim that a non-pending Order is left unchanged. -/
theorem order_completed_guard_counterexample :
    orderFailed.status = "failed" ∧
    orderFailed.stripe_session_id = some sessPay0.id ∧
    sessPay0.mode = "payment" ∧
    (handle_checkout_session_completed cfg0 env0 sessPay0 storeFailed).orders =
      [{ orderFailed with status := "completed" }] := by
  decide

/-- C4 (amended). The payment-mode branch sets every Order matching the
checkout-session reference to "completed" unconditionally, touching no user
rows; when every matching Order is already "completed" the store is unchanged
(the duplicate delivery is a silent no-op in value); and the webhook still
answers success. -/
theorem order_completion_unconditional (cfg : Config) (env : StripeEnv)
    (s : SessionObj) (uid : Nat) (hmeta : s.metadata_user_id = some uid)
    (hmode : s.mode = "payment") (store : Store) :
    (handle_checkout_session_completed cfg env s store).users = store.users ∧
    (handle_checkout_session_completed cfg env s store).orders =
      store.orders.map (fun o =>
        if o.stripe_session_id = some s.id then { o with status := "completed" }
        else o) ∧
    ((∀ o ∈ store.orders, o.stripe_session_id = some s.id →
        o.status = "completed") →
      handle_checkout_session_completed cfg env s store = store) ∧
    (stripe_webhook_api cfg env true
        (StripeEvent.checkout_session_completed s) store).2 =
      Except.ok "success" := by
  refine ⟨?_, ?_, ?_, ?_⟩
  · simp [handle_checkout_session_completed, hmeta, hmode]
  · simp [handle_checkout_session_completed, hmeta, hmode]
  · intro hall
    have horders : store.orders.map (fun o =>
        if o.stripe_session_id = some s.id then { o with status := "completed" }
        else o) = store.orders := by
      refine (List.map_congr_left ?_).trans (List.map_id _)
      intro o ho
      by_cases h : o.stripe_session_id = some s.id
      · rw [if_pos h, ← hall o ho h]
        rfl
      · simp [h]
    simp [handle_checkout_session_completed, hmeta, hmode, horders]
  · simp [stripe_webhook_api]

/-- Witness for C4 (amended): a delivery for an already-completed order leaves
the store unchanged. -/
theorem order_completion_unconditional_witness :
    sessPay0.metadata_user_id = some 7 ∧ sessPay0.mode = "payment" ∧
    handle_checkout_session_completed cfg0 env0 sessPay0 storeDone = storeDone :=
  ⟨rfl, rfl,
   (order_completion_unconditional cfg0 env0 sessPay0 7 rfl rfl storeDone).2.2.1
     (by decide)⟩

/-- C5 (code bug). An authentic invoice-paid event naming a subscription
reference — orphaned like `invOrphan` or not — makes `handle_invoice_paid`
raise: `conn.execute(...)` returns a `sqlite3.Cursor`, which has no `commit`
method, so the chained `.commit()` raises `AttributeError`, the transaction
rolls back, and the unhandled exception makes the endpoint answer 500. The
store is indeed left unchanged, but the webhook never answers success on this
path, refuting the claim's "returns success". -/
theorem invoice_paid_crashes_with_500 :
    (invOrphan.subscription = some "sub_gone" ∧
      stripe_webhook_api cfg0 env0 true
          (StripeEvent.invoice_payment_succeeded invOrphan) store0 =
        (store0, Except.error 500)) ∧
    ∀ (cfg : Config) (env : StripeEnv) (sub_id : String) (store : Store),
      stripe_webhook_api cfg env true
          (StripeEvent.invoice_payment_succeeded ⟨some sub_id⟩) store =
        (store, Except.error 500) :=
  ⟨⟨rfl, rfl⟩, fun _ _ _ _ => rfl⟩

/-- C6. In subscription mode with a user id in the metadata, the handler
rewrites exactly that user's row: the plan becomes the `plan_map` image of the
price id resolved for the purchased subscription, the status becomes "active",
the recurring-billing reference is stored, and every other field and every
other row — and the orders table — stay as they were. With the three
configured price ids distinct, the mapping sends them to "basic", "premium"
and "ultimate"; every price id outside the mapping yields the sentinel
"unknown" instead of a failure. -/
theorem subscription_checkout_writes_mapped_plan (cfg : Config)
    (env : StripeEnv) (s : SessionObj) (uid : Nat)
    (hmode : s.mode = "subscription") (hmeta : s.metadata_user_id = some uid)
    (store : Store) :
    ((handle_checkout_session_completed cfg env s store).orders = store.orders ∧
     (handle_checkout_session_completed cfg env s store).users =
       store.users.map (fun u =>
         if u.id = uid then
           { u with
               subscription_plan :=
                 plan_map_get cfg (env.subscriptionPriceId s.subscription),
               subscription_status := some "active",
               subscription_id := some s.subscription }
         else u)) ∧
    (cfg.STRIPE_PRICE_ID_BASIC ≠ cfg.STRIPE_PRICE_ID_PREMIUM →
      cfg.STRIPE_PRICE_ID_BASIC ≠ cfg.STRIPE_PRICE_ID_ULTIMATE →
      cfg.STRIPE_PRICE_ID_PREMIUM ≠ cfg.STRIPE_PRICE_ID_ULTIMATE →
      plan_map_get cfg cfg.STRIPE_PRICE_ID_BASIC = "basic" ∧
      plan_map_get cfg cfg.STRIPE_PRICE_ID_PREMIUM = "premium" ∧
      plan_map_get cfg cfg.STRIPE_PRICE_ID_ULTIMATE = "ultimate") ∧
    (∀ p, p ≠ cfg.STRIPE_PRICE_ID_BASIC → p ≠ cfg.STRIPE_PRICE_ID_PREMIUM →
      p ≠ cfg.STRIPE_PRICE_ID_ULTIMATE → plan_map_get cfg p = "unknown") := by
  refine ⟨⟨?_, ?_⟩, ?_, ?_⟩
  · simp [handle_checkout_session_completed, hmeta, hmode]
  · simp [handle_checkout_session_completed, hmeta, hmode, subscribe_user]
  · intro h1 h2 h3
    refine ⟨?_, ?_, ?_⟩
    · simp [plan_map_get, h1, h2]
    · simp [plan_map_get, h3]
    · simp [plan_map_get]
  · intro p hp1 hp2 hp3
    simp [plan_map_get, hp1, hp2, hp3]

/-- Witness for C6: with the distinct ids of `cfg0`, `user7` gets the premium
plan for the premium price, and an unmapped price yields "unknown". -/
theorem subscription_checkout_writes_mapped_plan_witness :
    sessSub0.mode = "subscription" ∧ sessSub0.metadata_user_id = some 7 ∧
    plan_map_get cfg0 cfg0.STRIPE_PRICE_ID_PREMIUM = "premium" ∧
    plan_map_get cfg0 "price_zzz" = "unknown" ∧
    (handle_checkout_session_completed cfg0 env0 sessSub0 store0).orders =
      store0.orders :=
  ⟨rfl, rfl,
   ((subscription_checkout_writes_mapped_plan cfg0 env0 sessSub0 7 rfl rfl
       store0).2.1 (by decide) (by decide) (by decide)).2.1,
   (subscription_checkout_writes_mapped_plan cfg0 env0 sessSub0 7 rfl rfl
       store0).2.2 "price_zzz" (by decide) (by decide) (by decide),
   (subscription_checkout_writes_mapped_plan cfg0 env0 sessSub0 7 rfl rfl
       store0).1.1⟩

/-- C7 (code bug). An empty cart is rejected before any processor call and
without any store write — the body raises 400 as the endpoint intends — but
because `HTTPException` subclasses `Exception`, the endpoint's own
`except Exception` catch-all re-raises it as a 500 server error, not the 4xx
client error the claim states. -/
theorem empty_cart_rejected_as_500 :
    create_checkout_session_body env0 user7 reqEmptyJson store0 =
      (store0, [], Except.error 400) ∧
    create_checkout_session_api env0 user7 reqEmptyJson store0 =
      (store0, [], Except.error 500) :=
  ⟨rfl, rfl⟩

/-- The body of the initiator never touches the orders table. -/
lemma create_checkout_session_body_orders (env : StripeEnv) (user : UserRec)
    (req : CheckoutRequest) (store : Store) :
    ((create_checkout_session_body env user req store).1).orders =
      store.orders := by
  unfold create_checkout_session_body
  cases resolve_line_items req with
  | none => rfl
  | some items =>
    cases items with
    | nil => rfl
    | cons first rest =>
      cases user.stripe_customer_id with
      | some cid => rfl
      | none => rfl

/-- The 500-wrapping of the endpoint does not change the store the body left. -/
lemma create_checkout_session_api_store (env : StripeEnv) (user : UserRec)
    (req : CheckoutRequest) (store : Store) :
    (create_checkout_session_api env user req store).1 =
      (create_checkout_session_body env user req store).1 := by
  unfold create_checkout_session_api
  rcases hb : create_checkout_session_body env user req store with ⟨st, calls, res⟩
  cases res <;> simp

/-- C8 (code bug). A one-time-purchase checkout initiation succeeds without
creating any Order: the endpoint never writes the orders table at all, so no
pending Order carrying the checkout-session reference exists for the webhook
to complete. -/
theorem checkout_never_creates_order :
    ((create_checkout_session_api env0 user7 reqOneTime store0).2.2 =
        Except.ok (CheckoutResp.jsonId "cs_new_1") ∧
      (create_checkout_session_api env0 user7 reqOneTime store0).1.orders = []) ∧
    ∀ (env : StripeEnv) (user : UserRec) (req : CheckoutRequest) (store : Store),
      ((create_checkout_session_api env user req store).1).orders =
        store.orders := by
  refine ⟨⟨rfl, by decide⟩, ?_⟩
  intro env user req store
  rw [create_checkout_session_api_store]
  exact create_checkout_session_body_orders env user req store

/-- C9 (counterexample). Two concurrent checkout initiations for a user with
no customer reference, both reading their snapshot before either writes,
create two customer records at the processor; the second does not reuse the
first's reference, and its unconditional overwrite wins. -/
theorem concurrent_customer_creation_counterexample :
    (let s0 : CustState := ⟨none, [], 0⟩
     let snapA := read_customer_ref s0
     let snapB := read_customer_ref s0
     let ra := customer_setup snapA s0
     let rb := customer_setup snapB ra.2
     rb.2.created.length = 2 ∧ ra.1 ≠ rb.1 ∧
       rb.2.dbCustomerId = some rb.1) := by
  decide

/-- C9 (amended). The persistence is an unconditional overwrite keyed on the
user id, so only serialised requests are safe: when the second request reads
its snapshot after the first has persisted, exactly one customer record is
created and the second observes and reuses the first-created reference. -/
theorem customer_creation_serial_reuse (s0 : CustState)
    (h : s0.dbCustomerId = none) (hc : s0.created = []) :
    (let ra := customer_setup (read_customer_ref s0) s0
     let rb := customer_setup (read_customer_ref ra.2) ra.2
     rb.2.created.length = 1 ∧ rb.1 = ra.1 ∧
       rb.2.dbCustomerId = some ra.1) := by
  simp only [read_customer_ref, customer_setup, stripe_customer_create,
    persist_customer_ref, h, hc]
  simp

/-- Witness for C9 (amended): from the empty initial state, serial execution
creates one customer record and the second request reuses it. -/
theorem customer_creation_serial_reuse_witness :
    (⟨none, [], 0⟩ : CustState).dbCustomerId = none ∧
    (⟨none, [], 0⟩ : CustState).created = [] ∧
    (let ra := customer_setup (read_customer_ref ⟨none, [], 0⟩) ⟨none, [], 0⟩
     let rb := customer_setup (read_customer_ref ra.2) ra.2
     rb.2.created.length = 1 ∧ rb.1 = ra.1 ∧
       rb.2.dbCustomerId = some ra.1) :=
  ⟨rfl, rfl, customer_creation_serial_reuse ⟨none, [], 0⟩ rfl rfl⟩

/-- For a resolved non-empty item list, the session is created with the mode
derived from the first item's price recurrence. -/
lemma sessionCreateMode_of_resolved (env : StripeEnv) (user : UserRec)
    (req : CheckoutRequest) (store : Store) (first : LineItem)
    (rest : List LineItem)
    (h : resolve_line_items req = some (first :: rest)) :
    sessionCreateMode (create_checkout_session_api env user req store).2.1 =
      some (if env.priceRecurring first.price then "subscription"
            else "payment") := by
  unfold create_checkout_session_api create_checkout_session_body
  rw [h]
  cases user.stripe_customer_id <;> simp [sessionCreateMode]

/-- C10. The mode of the created session depends only on whether the first
line item's price is recurring: two requests resolving to item lists with the
same head produce sessions of the same mode, whatever their tails. -/
theorem session_mode_from_first_item (env : StripeEnv) (user : UserRec)
    (store : Store) (req1 req2 : CheckoutRequest) (first : LineItem)
    (t1 t2 : List LineItem)
    (h1 : resolve_line_items req1 = some (first :: t1))
    (h2 : resolve_line_items req2 = some (first :: t2)) :
    sessionCreateMode (create_checkout_session_api env user req1 store).2.1 =
      sessionCreateMode (create_checkout_session_api env user req2 store).2.1 ∧
    sessionCreateMode (create_checkout_session_api env user req1 store).2.1 =
      some (if env.priceRecurring first.price then "subscription"
            else "payment") :=
  ⟨(sessionCreateMode_of_resolved env user req1 store first t1 h1).trans
     (sessionCreateMode_of_resolved env user req2 store first t2 h2).symm,
   sessionCreateMode_of_resolved env user req1 store first t1 h1⟩

/-- Witness for C10: a one-item one-time request and a two-item request whose
second item is the recurring price produce the same, payment-mode session. -/
theorem session_mode_from_first_item_witness :
    resolve_line_items (jsonCheckoutRequest [⟨"price_onetime_1", 2⟩]) =
      some [⟨"price_onetime_1", 2⟩] ∧
    resolve_line_items
        (jsonCheckoutRequest [⟨"price_onetime_1", 2⟩, ⟨"price_sub_1", 1⟩]) =
      some [⟨"price_onetime_1", 2⟩, ⟨"price_sub_1", 1⟩] ∧
    sessionCreateMode
        (create_checkout_session_api env0 user7
          (jsonCheckoutRequest [⟨"price_onetime_1", 2⟩]) store0).2.1 =
      sessionCreateMode
        (create_checkout_session_api env0 user7
          (jsonCheckoutRequest
            [⟨"price_onetime_1", 2⟩, ⟨"price_sub_1", 1⟩]) store0).2.1 :=
  ⟨by decide, by decide,
   (session_mode_from_first_item env0 user7 store0
      (jsonCheckoutRequest [⟨"price_onetime_1", 2⟩])
      (jsonCheckoutRequest [⟨"price_onetime_1", 2⟩, ⟨"price_sub_1", 1⟩])
      ⟨"price_onetime_1", 2⟩ [] [⟨"price_sub_1", 1⟩]
      (by decide) (by decide)).1⟩

end SloganTech
